import Mathlib

set_option maxRecDepth 4000

/-!
Verification development for the versioned file path resolution engine of the
repository. The REST resource layer is embedded from
zou/app/blueprints/files/resources.py. The service layer it calls
(files_service, file_tree_service, tasks_service.assign_task) is not part of
the source tree; those operations are modelled from the specification, each
marked `Modelled from the spec:` in its doc comment.
-/

/-- Request values as seen by flask_restful reqparse in the source resources:
either the integer used as a declared default (such as `revision` defaulting to
the int 0) or a string. -/
inductive PyVal where
  | pyInt (n : Int)
  | pyStr (s : String)
deriving DecidableEq, Repr

/-- Python str() of a request value. -/
def PyVal.toPyString : PyVal → String
  | .pyInt n => toString n
  | .pyStr s => s

/-- Python equality test `value == 0` as used by `revision != 0` in the source:
an int equals 0 exactly when it is 0; a string is never equal to the int 0. -/
def PyVal.eqZero : PyVal → Bool
  | .pyInt n => n == 0
  | .pyStr _ => false

/-- A reqparse argument declared without an explicit `type`, as in
`parser.add_argument("revision", default=0)` (WorkingFilePathResource) and the
ArgsMixin.get_args tuples: a supplied value is converted with str() (the
default argument type), an absent one yields the declared default unconverted. -/
def parseArg (supplied : Option PyVal) (dflt : PyVal) : PyVal :=
  match supplied with
  | none => dflt
  | some v => .pyStr v.toPyString

/-- Modelled from the spec: the error taxonomy of the template engine
(MalformedTemplate for structural or unknown-token errors, MissingContextValue
for a token present in the pattern but unresolvable from the context). All of
them surface as the MalformedFileTreeException caught by the path resources. -/
inductive TreeError where
  | malformedTemplate
  | missingContextValue
deriving DecidableEq, Repr, Fintype

/-- Modelled from the spec: the closed set of recognized template tokens. -/
inductive Token where
  | project
  | episode
  | seq
  | shot
  | asset
  | assetType
  | taskType
  | task
  | software
  | outputType
  | name
  | mode
  | representation
  | revision
  | extension
deriving DecidableEq, Repr

/-- Modelled from the spec: the token named by the text between `<` and `>` in
a pattern; an unrecognized name yields none (a MalformedTemplate error). -/
def tokenOfString (s : String) : Option Token :=
  if s = "Project" then some .project
  else if s = "Episode" then some .episode
  else if s = "Sequence" then some .seq
  else if s = "Shot" then some .shot
  else if s = "Asset" then some .asset
  else if s = "AssetType" then some .assetType
  else if s = "TaskType" then some .taskType
  else if s = "Task" then some .task
  else if s = "Software" then some .software
  else if s = "OutputType" then some .outputType
  else if s = "Name" then some .name
  else if s = "Mode" then some .mode
  else if s = "Representation" then some .representation
  else if s = "Revision" then some .revision
  else if s = "Extension" then some .extension
  else none

/-- Modelled from the spec: a pattern resolves to an ordered sequence of
literal and token segments. -/
inductive Segment where
  | lit (c : Char)
  | tok (t : Token)
deriving DecidableEq, Repr

/-- Modelled from the spec: scanning a pattern into segments. A `<...>` group
names a token from the closed set; an unknown or unterminated token group is a
MalformedTemplate error. The first argument is recursion fuel, always
instantiated to the length of the character list (each step consumes at least
one character, so the fuel is never exhausted on the intended calls). -/
def parseChars : Nat → List Char → Except TreeError (List Segment)
  | _, [] => .ok []
  | 0, _ :: _ => .error .malformedTemplate
  | fuel + 1, '<' :: rest =>
      let tokCs := rest.takeWhile (fun c => !(c == '>'))
      match rest.dropWhile (fun c => !(c == '>')) with
      | [] => .error .malformedTemplate
      | _ :: rest2 =>
        match tokenOfString (String.mk tokCs) with
        | some t =>
            match parseChars fuel rest2 with
            | .ok segs => .ok (.tok t :: segs)
            | .error e => .error e
        | none => .error .malformedTemplate
  | fuel + 1, c :: rest =>
      match parseChars fuel rest with
      | .ok segs => .ok (.lit c :: segs)
      | .error e => .error e

/-- Modelled from the spec: TemplateRegistry/TokenResolver pattern parsing. -/
def parsePattern (p : String) : Except TreeError (List Segment) :=
  parseChars p.toList.length p.toList

/-- Modelled from the spec: the token context, an immutable record of resolved
string values assembled per request. Every field is optional; a
referenced-but-missing field is a fatal resolution error. The revision is kept
as the raw request value, formatting it is the resolver's concern. -/
structure TokenContext where
  project : Option String := none
  episode : Option String := none
  seq : Option String := none
  shot : Option String := none
  asset : Option String := none
  assetType : Option String := none
  taskType : Option String := none
  task : Option String := none
  software : Option String := none
  outputType : Option String := none
  name : Option String := none
  mode : Option String := none
  representation : Option String := none
  extension : Option String := none
  revision : Option PyVal := none
deriving DecidableEq, Repr

/-- Python str.zfill with the sign-handling irrelevant here: left-pad with
zeros up to the width. -/
def zfill (width : Nat) (s : String) : String :=
  if width ≤ s.length then s
  else String.mk (List.replicate (width - s.length) '0') ++ s

/-- Modelled from the spec: a context field referenced by the pattern but
missing from the context is a MissingContextValue error. -/
def resolveOpt (v : Option String) : Except TreeError String :=
  match v with
  | some s => .ok s
  | none => .error .missingContextValue

/-- Modelled from the spec: each token maps to a pure function of the context;
the Revision token is rendered from the raw request value zero-padded to a
fixed width of 3 digits. -/
def resolveToken (ctx : TokenContext) : Token → Except TreeError String
  | .project => resolveOpt ctx.project
  | .episode => resolveOpt ctx.episode
  | .seq => resolveOpt ctx.seq
  | .shot => resolveOpt ctx.shot
  | .asset => resolveOpt ctx.asset
  | .assetType => resolveOpt ctx.assetType
  | .taskType => resolveOpt ctx.taskType
  | .task => resolveOpt ctx.task
  | .software => resolveOpt ctx.software
  | .outputType => resolveOpt ctx.outputType
  | .name => resolveOpt ctx.name
  | .mode => resolveOpt ctx.mode
  | .representation => resolveOpt ctx.representation
  | .revision =>
      match ctx.revision with
      | some v => .ok (zfill 3 v.toPyString)
      | none => .error .missingContextValue
  | .extension => resolveOpt ctx.extension

/-- Modelled from the spec: substitution of a segment sequence against a
context, applying the caller-chosen separator in place of the `/` literals of
the pattern (PathBuilder applies the separator to folder paths; file names are
built with the default separator, for which this is the identity). -/
def substSegsSep : List Segment → TokenContext → String → Except TreeError String
  | [], _, _ => .ok ""
  | .lit c :: rest, ctx, sep =>
      match substSegsSep rest ctx sep with
      | .ok r => .ok ((if c = '/' then sep else String.mk [c]) ++ r)
      | .error e => .error e
  | .tok t :: rest, ctx, sep =>
      match resolveToken ctx t with
      | .ok v =>
          match substSegsSep rest ctx sep with
          | .ok r => .ok (v ++ r)
          | .error e => .error e
      | .error e => .error e

/-- Modelled from the spec: expand a template pattern against resolved tokens,
applying the caller-chosen separator. -/
def buildPatternPath (pat : String) (ctx : TokenContext) (sep : String) :
    Except TreeError String :=
  match parsePattern pat with
  | .ok segs => substSegsSep segs ctx sep
  | .error e => .error e

/-- Modelled from the spec: token-by-token expansion of a pattern with the
default separator, as used for file names. -/
def substitutePattern (pat : String) (ctx : TokenContext) :
    Except TreeError String :=
  buildPatternPath pat ctx "/"

/-- Modelled from the spec: PathBuilder edge case — an empty name defaults to
the configured literal "main" during path building. -/
def checkedName (name : String) : String :=
  if name = "" then "main" else name

/-- Modelled from the spec: a named file-tree template holding the working and
output pattern strings (the per-entity-type mapping is collapsed to the single
entity type exercised by each request). -/
structure FileTreeTemplate where
  workingFolder : String
  workingFile : String
  outputFolder : String
  outputFile : String
deriving DecidableEq, Repr

/-- The task record as read by the resources: its id plus the resolved names
the token context needs. -/
structure TaskRecord where
  id : Nat
  projectName : String
  taskTypeName : String
  name : String
  entityName : String
deriving DecidableEq, Repr

/-- The software record returned by files_service.get_software. -/
structure Software where
  id : Nat
  name : String
deriving DecidableEq, Repr

/-- The entity record returned by entities_service.get_entity. -/
structure Entity where
  id : Nat
  projectName : String
  name : String
deriving DecidableEq, Repr

/-- The output type record returned by files_service.get_output_type. -/
structure OutputType where
  id : Nat
  name : String
deriving DecidableEq, Repr

/-- The task type record returned by tasks_service.get_task_type. -/
structure TaskType where
  id : Nat
  name : String
deriving DecidableEq, Repr

/-- The asset instance record returned by assets_service.get_asset_instance. -/
structure AssetInstance where
  id : Nat
  assetId : Nat
  name : String
  projectName : String
deriving DecidableEq, Repr

/-- Modelled from the spec: the token context assembled for a working file of
a task. The empty-name default is applied here, inside path building. -/
def workingContext (task : TaskRecord) (mode : String) (software : Software)
    (name : String) (revision : PyVal) : TokenContext :=
  { project := some task.projectName
    taskType := some task.taskTypeName
    task := some task.name
    asset := some task.entityName
    shot := some task.entityName
    software := some software.name
    name := some (checkedName name)
    mode := some mode
    revision := some revision }

/-- Modelled from the spec: the token context assembled for an output file of
an entity. -/
def outputContext (entity : Entity) (mode : String) (outputType : OutputType)
    (taskType : TaskType) (name representation : String) (revision : PyVal) :
    TokenContext :=
  { project := some entity.projectName
    asset := some entity.name
    shot := some entity.name
    outputType := some outputType.name
    taskType := some taskType.name
    name := some (checkedName name)
    mode := some mode
    representation := some representation
    revision := some revision }

/-- Modelled from the spec: the token context assembled for an output file of
an asset instance inside a temporal entity. -/
def instanceContext (inst : AssetInstance) (tempEntity : Entity)
    (outputType : OutputType) (taskType : TaskType)
    (mode name representation : String) (revision : PyVal) : TokenContext :=
  { project := some inst.projectName
    asset := some inst.name
    shot := some tempEntity.name
    outputType := some outputType.name
    taskType := some taskType.name
    name := some (checkedName name)
    mode := some mode
    representation := some representation
    revision := some revision }

/-- Modelled from the spec: file_tree_service.get_working_folder_path(task,
mode, software, name, sep, revision): expand the folder pattern of the mode
against the context with the caller-chosen separator. -/
def get_working_folder_path (tmpl : FileTreeTemplate) (task : TaskRecord)
    (mode : String) (software : Software) (name sep : String)
    (revision : PyVal) : Except TreeError String :=
  let pat := if mode = "working" then tmpl.workingFolder else tmpl.outputFolder
  buildPatternPath pat (workingContext task mode software name revision) sep

/-- Modelled from the spec: file_tree_service.get_working_file_name(task, mode,
revision, software, name). -/
def get_working_file_name (tmpl : FileTreeTemplate) (task : TaskRecord)
    (mode : String) (revision : PyVal) (software : Software) (name : String) :
    Except TreeError String :=
  let pat := if mode = "working" then tmpl.workingFile else tmpl.outputFile
  substitutePattern pat (workingContext task mode software name revision)

/-- Modelled from the spec: file_tree_service.get_output_folder_path(entity,
mode, output_type, task_type, name, representation, sep, revision). -/
def get_output_folder_path (tmpl : FileTreeTemplate) (entity : Entity)
    (mode : String) (outputType : OutputType) (taskType : TaskType)
    (name representation sep : String) (revision : PyVal) :
    Except TreeError String :=
  let pat := if mode = "working" then tmpl.workingFolder else tmpl.outputFolder
  buildPatternPath pat
    (outputContext entity mode outputType taskType name representation revision)
    sep

/-- Modelled from the spec: file_tree_service.get_output_file_name(entity,
mode, revision, output_type, task_type, name); sequence outputs (nb_elements
greater than 1) are not exercised by the claims, so the frame placeholder is
omitted. -/
def get_output_file_name (tmpl : FileTreeTemplate) (entity : Entity)
    (mode : String) (revision : PyVal) (outputType : OutputType)
    (taskType : TaskType) (name : String) : Except TreeError String :=
  let pat := if mode = "working" then tmpl.workingFile else tmpl.outputFile
  substitutePattern pat
    (outputContext entity mode outputType taskType name "" revision)

/-- Modelled from the spec: file_tree_service.get_instance_folder_path. -/
def get_instance_folder_path (tmpl : FileTreeTemplate) (inst : AssetInstance)
    (tempEntity : Entity) (outputType : OutputType) (taskType : TaskType)
    (mode name representation : String) (revision : PyVal) (sep : String) :
    Except TreeError String :=
  let pat := if mode = "working" then tmpl.workingFolder else tmpl.outputFolder
  buildPatternPath pat
    (instanceContext inst tempEntity outputType taskType mode name
      representation revision)
    sep

/-- Modelled from the spec: file_tree_service.get_instance_file_name. -/
def get_instance_file_name (tmpl : FileTreeTemplate) (inst : AssetInstance)
    (tempEntity : Entity) (outputType : OutputType) (taskType : TaskType)
    (mode name : String) (revision : PyVal) : Except TreeError String :=
  let pat := if mode = "working" then tmpl.workingFile else tmpl.outputFile
  substitutePattern pat
    (instanceContext inst tempEntity outputType taskType mode name "" revision)

/-- A persisted working file record (FileRecord of kind working), keyed by
(task_id, name) with its revision. -/
structure WorkingFile where
  taskId : Nat
  name : String
  revision : Nat
  path : String
  personId : Nat
  softwareId : Nat
  comment : String
deriving DecidableEq, Repr

/-- Modelled from the spec: the versioning key of an output file — the tuple
(entity_id, output_type_id or none, task_type_id or none, name,
asset_instance_id or none, temporal_entity_id or none). -/
structure OutputKey where
  entityId : Nat
  outputTypeId : Option Nat
  taskTypeId : Option Nat
  name : String
  assetInstanceId : Option Nat
  temporalEntityId : Option Nat
deriving DecidableEq, Repr

/-- A persisted output file record (FileRecord of kind output). -/
structure OutputFile where
  id : Nat
  entityId : Nat
  outputTypeId : Option Nat
  taskTypeId : Option Nat
  name : String
  assetInstanceId : Option Nat
  temporalEntityId : Option Nat
  revision : Nat
  personId : Nat
  workingFileId : Option Nat
  comment : String
  representation : String
  extension : String
  path : Option String
deriving DecidableEq, Repr

/-- The versioning key of an output file record. -/
def OutputFile.key (f : OutputFile) : OutputKey :=
  ⟨f.entityId, f.outputTypeId, f.taskTypeId, f.name, f.assetInstanceId,
   f.temporalEntityId⟩

/-- Modelled from the spec: the FileRecordStore, the single source of truth
for revision state, together with the task-assignment state the new-working
file resource mutates. -/
structure Store where
  workingFiles : List WorkingFile
  outputFiles : List OutputFile
  assignments : List (Nat × Nat)
  nextId : Nat
deriving DecidableEq, Repr

/-- Modelled from the spec: max(revision) over the working file records of a
(task_id, name) key, defaulting to 0 when no record exists. -/
def maxWorkingRevision : List WorkingFile → Nat → String → Nat
  | [], _, _ => 0
  | wf :: rest, taskId, name =>
      if wf.taskId = taskId ∧ wf.name = name then
        max wf.revision (maxWorkingRevision rest taskId name)
      else
        maxWorkingRevision rest taskId name

/-- Modelled from the spec: files_service.get_next_working_file_revision
(task_id, name): one more than the maximum revision stored for the key. -/
def get_next_working_file_revision (s : Store) (taskId : Nat) (name : String) :
    Nat :=
  maxWorkingRevision s.workingFiles taskId name + 1

/-- Modelled from the spec: files_service.get_next_working_revision, the name
used at NewWorkingFileResource.post; the same computation. -/
def get_next_working_revision (s : Store) (taskId : Nat) (name : String) :
    Nat :=
  get_next_working_file_revision s taskId name

/-- Modelled from the spec: max(revision) over the output file records of a
versioning key, defaulting to 0 when no record exists. -/
def maxOutputRevision : List OutputFile → OutputKey → Nat
  | [], _ => 0
  | f :: rest, k =>
      if f.key = k then max f.revision (maxOutputRevision rest k)
      else maxOutputRevision rest k

/-- Modelled from the spec: files_service.get_next_output_file_revision
(entity_id, output_type_id, task_type_id, name, asset_instance_id,
temporal_entity_id), the six parameters bundled as the versioning key. -/
def get_next_output_file_revision (s : Store) (k : OutputKey) : Nat :=
  maxOutputRevision s.outputFiles k + 1

/-- The store errors raised by the modelled services, and the TypeError a
Python call with unbound required parameters raises. -/
inductive ZouError where
  | entryAlreadyExists
  | tree (e : TreeError)
  | typeError
deriving DecidableEq, Repr

/-- Whether a working file record with this key and revision exists. -/
def workingRevisionExists (s : Store) (taskId : Nat) (name : String)
    (rev : Nat) : Bool :=
  s.workingFiles.any fun wf =>
    wf.taskId == taskId && wf.name == name && wf.revision == rev

/-- Whether an output file record with this key and revision exists. -/
def outputRevisionExists (s : Store) (k : OutputKey) (rev : Nat) : Bool :=
  s.outputFiles.any fun f => f.key == k && f.revision == rev

/-- Modelled from the spec: files_service.create_new_working_revision /
allocate(key, requested_revision): requested revision 0 is the auto-assign
sentinel proposing max+1; a pinned nonzero revision fails with
EntryAlreadyExists when a record with the key and revision already exists,
never renumbering or overwriting; otherwise the record is inserted. -/
def create_new_working_revision (s : Store) (taskId personId softwareId : Nat)
    (name path comment : String) (revision : Nat) :
    Except ZouError (WorkingFile × Store) :=
  if revision = 0 then
    let r := get_next_working_revision s taskId name
    let wf : WorkingFile := ⟨taskId, name, r, path, personId, softwareId, comment⟩
    .ok (wf, { s with workingFiles := wf :: s.workingFiles })
  else if workingRevisionExists s taskId name revision then
    .error .entryAlreadyExists
  else
    let wf : WorkingFile :=
      ⟨taskId, name, revision, path, personId, softwareId, comment⟩
    .ok (wf, { s with workingFiles := wf :: s.workingFiles })

/-- The output record inserted by an allocation at revision r. -/
def mkOutputFile (s : Store) (k : OutputKey) (personId : Nat)
    (workingFileId : Option Nat) (comment representation extension : String)
    (r : Nat) : OutputFile :=
  { id := s.nextId
    entityId := k.entityId
    outputTypeId := k.outputTypeId
    taskTypeId := k.taskTypeId
    name := k.name
    assetInstanceId := k.assetInstanceId
    temporalEntityId := k.temporalEntityId
    revision := r
    personId := personId
    workingFileId := workingFileId
    comment := comment
    representation := representation
    extension := extension
    path := none }

/-- Modelled from the spec: files_service.create_new_output_revision /
allocate(key, requested_revision) for output files, with the same sentinel and
pinned-revision contract as the working allocator. -/
def create_new_output_revision (s : Store) (k : OutputKey) (personId : Nat)
    (workingFileId : Option Nat) (comment representation extension : String)
    (revision : Nat) : Except ZouError (OutputFile × Store) :=
  if revision = 0 then
    let r := get_next_output_file_revision s k
    let f := mkOutputFile s k personId workingFileId comment representation
      extension r
    .ok (f, { s with outputFiles := f :: s.outputFiles, nextId := s.nextId + 1 })
  else if outputRevisionExists s k revision then
    .error .entryAlreadyExists
  else
    let f := mkOutputFile s k personId workingFileId comment representation
      extension revision
    .ok (f, { s with outputFiles := f :: s.outputFiles, nextId := s.nextId + 1 })

/-- Modelled from the spec: tasks_service.assign_task is outside the specified
core; it records the (task, person) assignment in persistent state, which is
the effect NewWorkingFileResource.post triggers before allocating. -/
def assign_task (s : Store) (taskId personId : Nat) : Store :=
  { s with assignments := (taskId, personId) :: s.assignments }

/-- Modelled from the spec: files_service.update_output_file restricted to the
path update performed by add_path_info: set the path of the record with the
given id. -/
def update_output_file_path (s : Store) (fileId : Nat) (newPath : String) :
    Store :=
  { s with
    outputFiles := s.outputFiles.map fun f =>
      if f.id = fileId then { f with path := some newPath } else f }


/-- The outcome of a resource post as seen by the HTTP layer: a body with its
status code, a handled error response, or an exception that no except clause
of the resource catches. -/
inductive ApiResp (α : Type) where
  | ok (body : α) (code : Nat)
  | err (code : Nat) (msg : String)
  | raised (e : ZouError)
deriving DecidableEq, Repr

/-- WorkingFilePathResource revision resolution (resources.py lines 155-159):
`is_revision_set_by_user = revision != 0`; only when that is false — the
parsed value is the int 0, which the str()-converting parser produces only for
an absent argument — is the next working file revision computed; otherwise the
raw parsed value is used as is. -/
def workingFilePathRevision (s : Store) (taskId : Nat) (name : String)
    (revParsed : PyVal) : PyVal :=
  if revParsed.eqZero then
    .pyInt (Int.ofNat (get_next_working_file_revision s taskId name))
  else revParsed

/-- WorkingFilePathResource.post (resources.py lines 130-204): parse name
(default "main"), mode (default "working"), revision (default the int 0, no
int conversion) and sep (default "/"); resolve the revision; build the working
folder path and file name; a MalformedFileTree error returns HTTP 400. Task,
software and permission lookups are elided: the fetched task and software
records are taken as arguments. The store is threaded through unchanged — the
operation performs no file record mutation on any path. -/
def WorkingFilePathResource.post (tmpl : FileTreeTemplate) (s : Store)
    (task : TaskRecord) (software : Software)
    (nameArg modeArg revisionArg sepArg : Option PyVal) :
    ApiResp (String × String) × Store :=
  let name := (parseArg nameArg (.pyStr "main")).toPyString
  let mode := (parseArg modeArg (.pyStr "working")).toPyString
  let revParsed := parseArg revisionArg (.pyInt 0)
  let sep := (parseArg sepArg (.pyStr "/")).toPyString
  let revision := workingFilePathRevision s task.id name revParsed
  match get_working_folder_path tmpl task mode software name sep revision with
  | .error _ => (.err 400 "MalformedFileTreeException", s)
  | .ok filePath =>
    match get_working_file_name tmpl task mode revision software name with
    | .error _ => (.err 400 "MalformedFileTreeException", s)
    | .ok fileName => (.ok (filePath, fileName) 200, s)

/-- EntityOutputFilePathResource.post (resources.py lines 207-273): parse the
arguments with ArgsMixin defaults; when `args["revision"] != 0` is false the
source runs `files_service.get_next_output_file_revision(entity_id,
args["name"])` — two positional arguments against the spec signature
(entity_id, output_type_id, task_type_id, name, asset_instance_id,
temporal_entity_id), which leaves the required task_type_id and name
parameters unbound, so the call raises a TypeError that no except clause
catches. When the revision is user-set, the folder path is built from
`args["revision"]` and the file name from the same value. Entity, output type,
task type and permission lookups are elided. -/
def EntityOutputFilePathResource.post (tmpl : FileTreeTemplate) (s : Store)
    (entity : Entity) (outputType : OutputType) (taskType : TaskType)
    (nameArg modeArg revisionArg representationArg separatorArg : Option PyVal) :
    ApiResp (String × String) × Store :=
  let name := (parseArg nameArg (.pyStr "main")).toPyString
  let mode := (parseArg modeArg (.pyStr "output")).toPyString
  let revArg := parseArg revisionArg (.pyInt 0)
  let representation := (parseArg representationArg (.pyStr "")).toPyString
  let sep := (parseArg separatorArg (.pyStr "/")).toPyString
  if revArg.eqZero then
    (.raised .typeError, s)
  else
    match get_output_folder_path tmpl entity mode outputType taskType name
        representation sep revArg with
    | .error _ => (.err 400 "MalformedFileTreeException", s)
    | .ok folderPath =>
      match get_output_file_name tmpl entity mode revArg outputType taskType
          name with
      | .error _ => (.err 400 "MalformedFileTreeException", s)
      | .ok fileName => (.ok (folderPath, fileName) 200, s)

/-- InstanceOutputFilePathResource.post (resources.py lines 276-341): parse
the arguments with ArgsMixin defaults and build the instance folder path and
file name, both directly from `args["revision"]` — the body never computes a
next revision, so an absent revision (default int 0) flows into both built
artifacts. Lookups are elided. -/
def InstanceOutputFilePathResource.post (tmpl : FileTreeTemplate) (s : Store)
    (inst : AssetInstance) (tempEntity : Entity) (outputType : OutputType)
    (taskType : TaskType)
    (nameArg modeArg revisionArg representationArg separatorArg : Option PyVal) :
    ApiResp (String × String) × Store :=
  let name := (parseArg nameArg (.pyStr "main")).toPyString
  let mode := (parseArg modeArg (.pyStr "output")).toPyString
  let revArg := parseArg revisionArg (.pyInt 0)
  let representation := (parseArg representationArg (.pyStr "")).toPyString
  let sep := (parseArg separatorArg (.pyStr "/")).toPyString
  match get_instance_folder_path tmpl inst tempEntity outputType taskType mode
      name representation revArg sep with
  | .error _ => (.err 400 "MalformedFileTreeException", s)
  | .ok folderPath =>
    match get_instance_file_name tmpl inst tempEntity outputType taskType mode
        name revArg with
    | .error _ => (.err 400 "MalformedFileTreeException", s)
    | .ok fileName => (.ok (folderPath, fileName) 200, s)

/-- NewWorkingFileResource.build_path (resources.py lines 430-437): the folder
path is requested without a separator argument (so the service default "/" is
used) and joined to the file name with the caller-chosen separator. -/
def NewWorkingFileResource.build_path (tmpl : FileTreeTemplate)
    (task : TaskRecord) (name : String) (revision : Nat) (software : Software)
    (sep mode : String) : Except TreeError String :=
  match get_working_folder_path tmpl task mode software name "/"
      (.pyInt (Int.ofNat revision)) with
  | .error e => .error e
  | .ok folderPath =>
    match get_working_file_name tmpl task mode (.pyInt (Int.ofNat revision))
        software name with
    | .error e => .error e
    | .ok fileName => .ok (folderPath ++ sep ++ fileName)

/-- NewWorkingFileResource.post (resources.py lines 377-466): the revision
argument is declared with type=int, so it arrives as an integer; the task is
assigned to the current user, then revision 0 is replaced by the next working
revision, the path is built, and the record is created.
EntryAlreadyExistsException returns HTTP 400; tree errors are not caught.
Task, software and permission lookups are elided; name is a required
argument. -/
def NewWorkingFileResource.post (tmpl : FileTreeTemplate) (s : Store)
    (task : TaskRecord) (currentUserId : Nat) (software : Software)
    (name mode comment : String) (personId : Nat) (revision : Nat)
    (sep : String) : ApiResp WorkingFile × Store :=
  let s1 := assign_task s task.id currentUserId
  let rev :=
    if revision = 0 then get_next_working_revision s1 task.id name
    else revision
  match NewWorkingFileResource.build_path tmpl task name rev software sep mode with
  | .error e => (.raised (.tree e), s1)
  | .ok path =>
    match create_new_working_revision s1 task.id personId software.id name
        path comment rev with
    | .error .entryAlreadyExists =>
        (.err 400 "The given working file already exists.", s1)
    | .error e => (.raised e, s1)
    | .ok (wf, s2) => (.ok wf 201, s2)

/-- NewEntityOutputFileResource.post (resources.py lines 519-658): the
revision is int-converted, the output record is created first (allocate with
the sentinel semantics), and only then does add_path_info build the folder
path and file name and store the full path on the record. EntryAlreadyExists
returns HTTP 400; tree errors raised inside add_path_info are not in the
except list, so they surface after the record was created. Lookups and person
resolution elided; add_path_info is called with the literal mode "output". -/
def NewEntityOutputFileResource.post (tmpl : FileTreeTemplate) (s : Store)
    (entity : Entity) (outputType : OutputType) (taskType : TaskType)
    (personId : Nat) (workingFileId : Option Nat)
    (name comment representation extension : String) (revision : Nat)
    (sep : String) : ApiResp OutputFile × Store :=
  let key : OutputKey :=
    ⟨entity.id, some outputType.id, some taskType.id, name, none, none⟩
  match create_new_output_revision s key personId workingFileId comment
      representation extension revision with
  | .error .entryAlreadyExists =>
      (.err 400 "The given output file already exists.", s)
  | .error e => (.raised e, s)
  | .ok (f, s1) =>
    match get_output_folder_path tmpl entity "output" outputType taskType name
        representation sep (.pyInt (Int.ofNat f.revision)) with
    | .error e => (.raised (.tree e), s1)
    | .ok folderPath =>
      match get_output_file_name tmpl entity "output"
          (.pyInt (Int.ofNat f.revision)) outputType taskType name with
      | .error e => (.raised (.tree e), s1)
      | .ok fileName =>
        let fullPath := folderPath ++ sep ++ fileName ++ extension
        let s2 := update_output_file_path s1 f.id fullPath
        (.ok { f with path := some fullPath } 201, s2)

/-- A well-formed demo template: working and output patterns over resolvable
tokens. -/
def tmplDemo : FileTreeTemplate :=
  ⟨"<Project>/working/<Task>", "<Name>_v<Revision>",
   "<Project>/output/<OutputType>", "<Name>_v<Revision>"⟩

/-- A template whose output folder pattern holds the unknown token Foo. -/
def tmplBad : FileTreeTemplate :=
  ⟨"<Project>", "<Name>", "<Foo>/out", "<Name>_v<Revision>"⟩

/-- The empty store. -/
def emptyStore : Store := ⟨[], [], [], 1⟩

/-- A store holding one working file: task 1, name "main", revision 3. -/
def storeOneWorking : Store := ⟨[⟨1, "main", 3, "p", 1, 1, "c"⟩], [], [], 1⟩

/-- The demo output versioning key: entity 7, output type 3, task type 4,
name "main", no asset instance. -/
def keyDemo : OutputKey := ⟨7, some 3, some 4, "main", none, none⟩

/-- A store holding one working file (task 1, "main", revision 3) and one
output file at the demo key with revision 2. -/
def storeMixed : Store :=
  ⟨[⟨1, "main", 3, "p", 1, 1, "c"⟩],
   [⟨1, 7, some 3, some 4, "main", none, none, 2, 1, none, "", "", "", none⟩],
   [], 5⟩

/-- Demo task: id 1 on project kitsu. -/
def taskDemo : TaskRecord := ⟨1, "kitsu", "modeling", "modeling", "chair"⟩

/-- Demo software. -/
def softDemo : Software := ⟨2, "blender"⟩

/-- Demo entity: id 7 on project kitsu. -/
def entityDemo : Entity := ⟨7, "kitsu", "chair"⟩

/-- Demo output type: id 3. -/
def otypeDemo : OutputType := ⟨3, "cache"⟩

/-- Demo task type: id 4. -/
def ttypeDemo : TaskType := ⟨4, "modeling"⟩

/-- Demo asset instance: id 9 of asset 7. -/
def instDemo : AssetInstance := ⟨9, 7, "chair_1", "kitsu"⟩

/-- Repeated sequential auto allocations: perform the given number of working
file creations with the requested revision 0 (person 1, software 1, empty path
and comment — none of which affect revision numbering) and collect the
revision each successful creation returns. -/
def autoWorkingRevisions : Store → Nat → String → Nat → List Nat
  | _, _, _, 0 => []
  | s, taskId, name, n + 1 =>
      match create_new_working_revision s taskId 1 1 name "" "" 0 with
      | .ok (wf, s') => wf.revision :: autoWorkingRevisions s' taskId name n
      | .error _ => []

/-- Repeated sequential auto allocations of output files at a fixed key. -/
def autoOutputRevisions : Store → OutputKey → Nat → List Nat
  | _, _, 0 => []
  | s, k, n + 1 =>
      match create_new_output_revision s k 1 none "" "" "" 0 with
      | .ok (f, s') => f.revision :: autoOutputRevisions s' k n
      | .error _ => []

theorem create_working_auto (s : Store) (t p sw : Nat) (n pa c : String) :
    create_new_working_revision s t p sw n pa c 0
      = .ok (⟨t, n, maxWorkingRevision s.workingFiles t n + 1, pa, p, sw, c⟩,
             { s with workingFiles :=
                ⟨t, n, maxWorkingRevision s.workingFiles t n + 1, pa, p, sw, c⟩
                  :: s.workingFiles }) := by
  rfl

theorem maxWorkingRevision_cons_match (l : List WorkingFile) (t p sw : Nat)
    (n pa c : String) (r : Nat) :
    maxWorkingRevision (⟨t, n, r, pa, p, sw, c⟩ :: l) t n
      = max r (maxWorkingRevision l t n) := by
  simp [maxWorkingRevision]

theorem maxWorkingRevision_eq_zero (l : List WorkingFile) (t : Nat)
    (n : String) (h : ∀ wf ∈ l, wf.taskId ≠ t ∨ wf.name ≠ n) :
    maxWorkingRevision l t n = 0 := by
  induction l with
  | nil => rfl
  | cons wf rest ih =>
      have hwf := h wf (List.mem_cons_self wf rest)
      have hrest := ih fun w hw => h w (List.mem_cons_of_mem wf hw)
      simp only [maxWorkingRevision]
      rw [if_neg, hrest]
      rintro ⟨h1, h2⟩
      rcases hwf with h' | h'
      · exact h' h1
      · exact h' h2

theorem autoWorkingRevisions_succ (s : Store) (t : Nat) (n : String)
    (k : Nat) :
    autoWorkingRevisions s t n (k + 1)
      = (maxWorkingRevision s.workingFiles t n + 1)
        :: autoWorkingRevisions
            { s with workingFiles :=
                ⟨t, n, maxWorkingRevision s.workingFiles t n + 1, "", 1, 1, ""⟩
                  :: s.workingFiles }
            t n k := by
  rfl

theorem autoWorkingRevisions_eq (t : Nat) (n : String) (k : Nat) :
    ∀ s : Store, autoWorkingRevisions s t n k
      = List.range' (maxWorkingRevision s.workingFiles t n + 1) k := by
  induction k with
  | zero => intro s; rfl
  | succ k ih =>
      intro s
      rw [autoWorkingRevisions_succ, ih, List.range'_succ]
      have hmax : maxWorkingRevision
          (⟨t, n, maxWorkingRevision s.workingFiles t n + 1, "", 1, 1, ""⟩
            :: s.workingFiles) t n
          = maxWorkingRevision s.workingFiles t n + 1 := by
        rw [maxWorkingRevision_cons_match]
        exact Nat.max_eq_left (Nat.le_succ _)
      simp [hmax]

theorem create_output_auto (s : Store) (k : OutputKey) (p : Nat)
    (w : Option Nat) (c rep ext : String) :
    create_new_output_revision s k p w c rep ext 0
      = .ok (mkOutputFile s k p w c rep ext
               (maxOutputRevision s.outputFiles k + 1),
             { s with
                outputFiles :=
                  mkOutputFile s k p w c rep ext
                    (maxOutputRevision s.outputFiles k + 1) :: s.outputFiles,
                nextId := s.nextId + 1 }) := by
  rfl

theorem maxOutputRevision_cons_match (l : List OutputFile) (s : Store)
    (k : OutputKey) (p : Nat) (w : Option Nat) (c rep ext : String) (r : Nat) :
    maxOutputRevision (mkOutputFile s k p w c rep ext r :: l) k
      = max r (maxOutputRevision l k) := by
  simp [maxOutputRevision, mkOutputFile, OutputFile.key]

theorem maxOutputRevision_eq_zero (l : List OutputFile) (k : OutputKey)
    (h : ∀ f ∈ l, f.key ≠ k) :
    maxOutputRevision l k = 0 := by
  induction l with
  | nil => rfl
  | cons f rest ih =>
      have hf := h f (List.mem_cons_self f rest)
      have hrest := ih fun g hg => h g (List.mem_cons_of_mem f hg)
      simp only [maxOutputRevision]
      rw [if_neg hf, hrest]

theorem autoOutputRevisions_succ (s : Store) (k : OutputKey) (n : Nat) :
    autoOutputRevisions s k (n + 1)
      = (maxOutputRevision s.outputFiles k + 1)
        :: autoOutputRevisions
            { s with
              outputFiles :=
                mkOutputFile s k 1 none "" "" ""
                  (maxOutputRevision s.outputFiles k + 1) :: s.outputFiles,
              nextId := s.nextId + 1 }
            k n := by
  rfl

theorem autoOutputRevisions_eq (k : OutputKey) (n : Nat) :
    ∀ s : Store, autoOutputRevisions s k n
      = List.range' (maxOutputRevision s.outputFiles k + 1) n := by
  induction n with
  | zero => intro s; rfl
  | succ n ih =>
      intro s
      rw [autoOutputRevisions_succ, ih, List.range'_succ]
      have hmax : maxOutputRevision
          (mkOutputFile s k 1 none "" "" ""
            (maxOutputRevision s.outputFiles k + 1) :: s.outputFiles) k
          = maxOutputRevision s.outputFiles k + 1 := by
        rw [maxOutputRevision_cons_match]
        exact Nat.max_eq_left (Nat.le_succ _)
      simp [hmax]

/-- Decidable equality for Except results, so concrete evaluations of the
fallible services can be checked by decide. -/
instance exceptDecidableEq {e a : Type} [DecidableEq e] [DecidableEq a] :
    DecidableEq (Except e a) := fun x y =>
  match x, y with
  | .ok u, .ok v =>
      if h : u = v then isTrue (by rw [h]) else isFalse (by simp [h])
  | .error u, .error v =>
      if h : u = v then isTrue (by rw [h]) else isFalse (by simp [h])
  | .ok _, .error _ => isFalse (by simp)
  | .error _, .ok _ => isFalse (by simp)

theorem workingRevisionExists_assign (s : Store) (t u tq : Nat) (n : String)
    (R : Nat) :
    workingRevisionExists (assign_task s t u) tq n R
      = workingRevisionExists s tq n R := rfl

theorem newWorkingFilePost_pinned (tmpl : FileTreeTemplate) (s : Store)
    (task : TaskRecord) (uid : Nat) (software : Software)
    (name mode comment : String) (pid R : Nat) (sep p : String)
    (hR : R ≠ 0)
    (hp : NewWorkingFileResource.build_path tmpl task name R software sep mode
      = .ok p) :
    NewWorkingFileResource.post tmpl s task uid software name mode comment pid
        R sep
      = if workingRevisionExists s task.id name R then
          (.err 400 "The given working file already exists.",
           assign_task s task.id uid)
        else
          (.ok ⟨task.id, name, R, p, pid, software.id, comment⟩ 201,
           { assign_task s task.id uid with
              workingFiles :=
                ⟨task.id, name, R, p, pid, software.id, comment⟩
                  :: s.workingFiles }) := by
  simp only [NewWorkingFileResource.post, if_neg hR, hp]
  simp only [create_new_working_revision, if_neg hR,
    workingRevisionExists_assign]
  by_cases hex : workingRevisionExists s task.id name R
  · rw [if_pos hex, if_pos hex]
  · rw [if_neg hex, if_neg hex]
    rfl

/-- C1: the claim says that in every path-generation or file-creation
operation a requested revision of 0 means auto-assign, the computed next
revision is used consistently in every produced artifact, and 0 itself never
appears as a real revision in any produced path. The code violates this:
InstanceOutputFilePathResource.post never computes a next revision, and with
no revision supplied (the parsed default int 0) it builds both artifacts from
revision 0, returning the file name "main_v000" — the sentinel rendered as a
real revision (EntityOutputFilePathResource.post likewise feeds
args["revision"] to its folder path). Evaluated at the failing input. -/
theorem C1_revision_zero_used_in_path :
    InstanceOutputFilePathResource.post tmplDemo emptyStore instDemo entityDemo
      otypeDemo ttypeDemo none none none none none
      = (.ok ("kitsu/output/cache", "main_v000") 200, emptyStore) := by rfl

/-- C2: the claim says every computation of the next output-file revision is
keyed on the full versioning key (entity id, output type id, task type id,
name, and the instance ids when applicable). The code violates this:
EntityOutputFilePathResource.post passes only (entity_id, args["name"]) to
get_next_output_file_revision, which leaves the required task_type_id and
name parameters of the spec signature unbound, so at the failing input
(revision absent, hence the auto branch) the operation raises an uncaught
TypeError instead of a computation keyed on the full key. -/
theorem C2_next_output_revision_not_keyed_on_full_key :
    EntityOutputFilePathResource.post tmplDemo emptyStore entityDemo otypeDemo
      ttypeDemo none none none none none
      = (.raised .typeError, emptyStore) := by rfl

/-- C3: for a versioning key with no prior record, repeated sequential auto
allocations (requested revision 0) return the revisions 1, 2, 3, … — the list
List.range' 1 n — with no repeats and no gaps, both for working files and for
output files; in particular with no prior working file the next working-file
revision is 1, and after one creation with revision 0 the next call returns
2. -/
theorem C3_sequential_auto_allocation (s : Store) (taskId pid swid : Nat)
    (name pa c : String) (k : OutputKey) (n : Nat)
    (hw : ∀ wf ∈ s.workingFiles, wf.taskId ≠ taskId ∨ wf.name ≠ name)
    (ho : ∀ f ∈ s.outputFiles, f.key ≠ k) :
    autoWorkingRevisions s taskId name n = List.range' 1 n
    ∧ autoOutputRevisions s k n = List.range' 1 n
    ∧ get_next_working_file_revision s taskId name = 1
    ∧ ∀ wf s', create_new_working_revision s taskId pid swid name pa c 0
          = .ok (wf, s')
        → get_next_working_file_revision s' taskId name = 2 := by
  have hw0 := maxWorkingRevision_eq_zero s.workingFiles taskId name hw
  have ho0 := maxOutputRevision_eq_zero s.outputFiles k ho
  refine ⟨?_, ?_, ?_, ?_⟩
  · rw [autoWorkingRevisions_eq, hw0]
  · rw [autoOutputRevisions_eq, ho0]
  · rw [get_next_working_file_revision, hw0]
  · intro wf s' hcr
    rw [create_working_auto] at hcr
    simp only [Except.ok.injEq, Prod.mk.injEq] at hcr
    obtain ⟨hwf, hs⟩ := hcr
    subst hs
    simp only [get_next_working_file_revision, maxWorkingRevision_cons_match,
      hw0]
    omega

/-- C3 witness: three sequential auto allocations from the empty store return
exactly the revisions 1, 2, 3, and the first next-revision query returns 1. -/
theorem C3_witness :
    autoWorkingRevisions emptyStore 1 "main" 3 = List.range' 1 3
    ∧ get_next_working_file_revision emptyStore 1 "main" = 1 := by
  have h := C3_sequential_auto_allocation emptyStore 1 1 1 "main" "" ""
    keyDemo 3 (by decide) (by decide)
  exact ⟨h.1, h.2.2.1⟩

theorem newEntityOutputFilePost_conflict (tmpl : FileTreeTemplate) (s : Store)
    (entity : Entity) (otype : OutputType) (ttype : TaskType) (pid : Nat)
    (wfid : Option Nat) (name comment rep ext : String) (R : Nat)
    (sep : String) (hR : R ≠ 0)
    (hex : outputRevisionExists s
      ⟨entity.id, some otype.id, some ttype.id, name, none, none⟩ R = true) :
    NewEntityOutputFileResource.post tmpl s entity otype ttype pid wfid name
        comment rep ext R sep
      = (.err 400 "The given output file already exists.", s) := by
  simp only [NewEntityOutputFileResource.post, create_new_output_revision,
    if_neg hR, hex, if_true]

theorem newEntityOutputFilePost_no_conflict_ne (tmpl : FileTreeTemplate)
    (s : Store) (entity : Entity) (otype : OutputType) (ttype : TaskType)
    (pid : Nat) (wfid : Option Nat) (name comment rep ext : String) (R : Nat)
    (sep : String) (hR : R ≠ 0)
    (hex : outputRevisionExists s
      ⟨entity.id, some otype.id, some ttype.id, name, none, none⟩ R = false)
    (msg : String) :
    (NewEntityOutputFileResource.post tmpl s entity otype ttype pid wfid name
        comment rep ext R sep).1 ≠ .err 400 msg := by
  have hex' : outputRevisionExists s
      ⟨entity.id, some otype.id, some ttype.id, name, none, none⟩ R ≠ true := by
    simp [hex]
  simp only [NewEntityOutputFileResource.post, create_new_output_revision,
    if_neg hR, if_neg hex']
  split
  · simp
  · split
    · simp
    · simp

/-- C5: a creation call pinning a nonzero revision R fails with
EntryAlreadyExists — surfaced to the caller as HTTP 400 — if and only if a
record with the same versioning key and revision R already exists, and on
such a failure the stored file records are unchanged (nothing is renumbered
or overwritten). Stated for the new-working-file operation, whose path
building must succeed for the request to reach the allocator, and for the
new-entity-output-file operation. -/
theorem C5_pinned_revision_conflict (tmpl : FileTreeTemplate) (s : Store)
    (task : TaskRecord) (uid : Nat) (software : Software)
    (name mode comment : String) (pid R : Nat) (sep : String)
    (entity : Entity) (otype : OutputType) (ttype : TaskType) (pid2 : Nat)
    (wfid : Option Nat) (oname ocomment orep oext : String) (R2 : Nat)
    (osep : String)
    (hR : R ≠ 0) (hR2 : R2 ≠ 0)
    (hpath : ∀ e, NewWorkingFileResource.build_path tmpl task name R software
        sep mode ≠ .error e) :
    ((NewWorkingFileResource.post tmpl s task uid software name mode comment
        pid R sep).1 = .err 400 "The given working file already exists."
      ↔ workingRevisionExists s task.id name R = true)
    ∧ (workingRevisionExists s task.id name R = true →
        ((NewWorkingFileResource.post tmpl s task uid software name mode
            comment pid R sep).2).workingFiles = s.workingFiles)
    ∧ ((NewEntityOutputFileResource.post tmpl s entity otype ttype pid2 wfid
          oname ocomment orep oext R2 osep).1
        = .err 400 "The given output file already exists."
      ↔ outputRevisionExists s
          ⟨entity.id, some otype.id, some ttype.id, oname, none, none⟩ R2
            = true)
    ∧ (outputRevisionExists s
          ⟨entity.id, some otype.id, some ttype.id, oname, none, none⟩ R2
            = true →
        ((NewEntityOutputFileResource.post tmpl s entity otype ttype pid2 wfid
            oname ocomment orep oext R2 osep).2).outputFiles
          = s.outputFiles) := by
  obtain ⟨p, hp⟩ : ∃ p, NewWorkingFileResource.build_path tmpl task name R
      software sep mode = .ok p := by
    cases hb : NewWorkingFileResource.build_path tmpl task name R software sep
        mode with
    | error e => exact absurd hb (hpath e)
    | ok p => exact ⟨p, rfl⟩
  have hw := newWorkingFilePost_pinned tmpl s task uid software name mode
    comment pid R sep p hR hp
  refine ⟨?_, ?_, ?_, ?_⟩
  · constructor
    · intro h
      by_cases hex : workingRevisionExists s task.id name R = true
      · exact hex
      · rw [hw, if_neg hex] at h
        exact absurd h (by simp)
    · intro hex
      rw [hw, if_pos hex]
  · intro hex
    rw [hw, if_pos hex]
    rfl
  · constructor
    · intro h
      by_cases hex : outputRevisionExists s
          ⟨entity.id, some otype.id, some ttype.id, oname, none, none⟩ R2
            = true
      · exact hex
      · exact absurd h (newEntityOutputFilePost_no_conflict_ne tmpl s entity
          otype ttype pid2 wfid oname ocomment orep oext R2 osep hR2
          (by simpa using hex) _)
    · intro hex
      rw [newEntityOutputFilePost_conflict tmpl s entity otype ttype pid2 wfid
        oname ocomment orep oext R2 osep hR2 hex]
  · intro hex
    rw [newEntityOutputFilePost_conflict tmpl s entity otype ttype pid2 wfid
      oname ocomment orep oext R2 osep hR2 hex]

/-- C5 witness: the theorem instantiated at a store holding working file
(task 1, "main", revision 3) and an output file at the demo key with revision
2: pinning those revisions again fails with 400 and leaves the records
unchanged. -/
theorem C5_witness :
    ((NewWorkingFileResource.post tmplDemo storeMixed taskDemo 2 softDemo
        "main" "working" "" 1 3 "/").1
      = .err 400 "The given working file already exists.")
    ∧ ((NewWorkingFileResource.post tmplDemo storeMixed taskDemo 2 softDemo
        "main" "working" "" 1 3 "/").2).workingFiles = storeMixed.workingFiles
    ∧ ((NewEntityOutputFileResource.post tmplDemo storeMixed entityDemo
        otypeDemo ttypeDemo 1 none "main" "" "" "" 2 "/").1
      = .err 400 "The given output file already exists.") := by
  have h := C5_pinned_revision_conflict tmplDemo storeMixed taskDemo 2
    softDemo "main" "working" "" 1 3 "/" entityDemo otypeDemo ttypeDemo 1 none
    "main" "" "" "" 2 "/" (by decide) (by decide) (by decide)
  exact ⟨h.1.mpr (by decide), h.2.1 (by decide), h.2.2.1.mpr (by decide)⟩

/-- C6 counterexample: the claim says template and token-resolution errors are
detected and surfaced before any store mutation, with no FileRecord created
when such an error is raised. Creating a new entity output file against a
template whose output folder pattern holds the unknown token Foo raises the
template error — uncaught, since MalformedFileTree is not in the resource's
except list — yet the final store holds the freshly created output record:
the record was created before path resolution. -/
theorem C6_counterexample :
    ((NewEntityOutputFileResource.post tmplBad emptyStore entityDemo otypeDemo
        ttypeDemo 1 none "main" "" "" "" 1 "/").1
      = .raised (.tree .malformedTemplate))
    ∧ ((NewEntityOutputFileResource.post tmplBad emptyStore entityDemo
        otypeDemo ttypeDemo 1 none "main" "" "" "" 1 "/").2).outputFiles
      = [mkOutputFile emptyStore
          ⟨entityDemo.id, some otypeDemo.id, some ttypeDemo.id, "main", none,
           none⟩ 1 none "" "" "" 1]
    ∧ emptyStore.outputFiles = [] := by
  refine ⟨by rfl, by rfl, rfl⟩

/-- C6 amended: template and token-resolution errors are surfaced to the
caller before any store mutation only in the pure path-generation operations:
the working-file-path and instance-output-file-path operations never mutate
the store and answer every request either with 200 or with a 400 carrying the
template error. The file-creation operations violate the original claim: they
mutate (task assignment, record creation) before path resolution, as the
counterexample shows. -/
theorem C6_path_ops_surface_template_errors (tmpl : FileTreeTemplate)
    (s : Store) (task : TaskRecord) (software : Software)
    (inst : AssetInstance) (tempEntity : Entity) (otype : OutputType)
    (ttype : TaskType) (na mo re se na2 mo2 re2 rep2 se2 : Option PyVal) :
    (WorkingFilePathResource.post tmpl s task software na mo re se).2 = s
    ∧ ((∃ body, (WorkingFilePathResource.post tmpl s task software na mo re
          se).1 = .ok body 200)
       ∨ (∃ msg, (WorkingFilePathResource.post tmpl s task software na mo re
          se).1 = .err 400 msg))
    ∧ (InstanceOutputFilePathResource.post tmpl s inst tempEntity otype ttype
        na2 mo2 re2 rep2 se2).2 = s
    ∧ ((∃ body, (InstanceOutputFilePathResource.post tmpl s inst tempEntity
          otype ttype na2 mo2 re2 rep2 se2).1 = .ok body 200)
       ∨ (∃ msg, (InstanceOutputFilePathResource.post tmpl s inst tempEntity
          otype ttype na2 mo2 re2 rep2 se2).1 = .err 400 msg)) := by
  refine ⟨?_, ?_, ?_, ?_⟩
  · simp only [WorkingFilePathResource.post]
    split
    · rfl
    · split
      · rfl
      · rfl
  · simp only [WorkingFilePathResource.post]
    split
    · exact Or.inr ⟨_, rfl⟩
    · split
      · exact Or.inr ⟨_, rfl⟩
      · exact Or.inl ⟨_, rfl⟩
  · simp only [InstanceOutputFilePathResource.post]
    split
    · rfl
    · split
      · rfl
      · rfl
  · simp only [InstanceOutputFilePathResource.post]
    split
    · exact Or.inr ⟨_, rfl⟩
    · split
      · exact Or.inr ⟨_, rfl⟩
      · exact Or.inl ⟨_, rfl⟩

/-- C7: pattern substitution expands a template token by token with the
Revision token zero-padded to a fixed width of 3 digits: the template
Project slash Task slash Name underscore v Revision applied to the context
(Project kitsu, Task modeling, Name main, Revision 3) produces exactly
"kitsu/modeling/main_v003". -/
theorem C7_substitution_example :
    substitutePattern "<Project>/<Task>/<Name>_v<Revision>"
      { project := some "kitsu", task := some "modeling",
        name := some "main", revision := some (.pyInt 3) }
      = .ok "kitsu/modeling/main_v003" := by rfl

/-- C8 counterexample: the claim says a call that supplies an empty name
produces the same result as the same call with name "main". With a store
holding a working file (task 1, "main", revision 3), the working-file-path
operation with an empty supplied name computes the next revision for the key
name "" (giving 1) while path building defaults the name to "main", so the
result differs from the call with name "main" (which returns revision 4). -/
theorem C8_counterexample :
    WorkingFilePathResource.post tmplDemo storeOneWorking taskDemo softDemo
      (some (.pyStr "")) none none none
      ≠ WorkingFilePathResource.post tmplDemo storeOneWorking taskDemo softDemo
        (some (.pyStr "main")) none none none := by
  decide

/-- C8 amended: an omitted name defaults to "main" and the call produces
exactly the same result as supplying "main" explicitly; a supplied empty name
is defaulted to "main" only inside path building (checkedName), while the
revision computation keys on the empty string, so such a call can differ from
one that supplies "main" when records exist under "main". -/
theorem C8_omitted_name_defaults_to_main (tmpl : FileTreeTemplate) (s : Store)
    (task : TaskRecord) (software : Software) (mo re se : Option PyVal) :
    WorkingFilePathResource.post tmpl s task software none mo re se
      = WorkingFilePathResource.post tmpl s task software
          (some (.pyStr "main")) mo re se
    ∧ checkedName "" = "main"
    ∧ parseArg none (.pyStr "main") = .pyStr "main" :=
  ⟨rfl, rfl, rfl⟩

/-- C9: in the working-file-path operation the revision argument is parsed
without integer conversion: a supplied value is kept as the str()-converted
raw value, any supplied value — including the string "0" — fails the
`revision != 0` comparison against the int 0 and is therefore treated as
user-set and passed to path building unchanged, and the next revision is
computed only for the absent-argument default int 0. -/
theorem C9_raw_revision_passthrough (s : Store) (taskId : Nat)
    (name v : String) :
    parseArg (some (.pyStr v)) (.pyInt 0) = .pyStr v
    ∧ workingFilePathRevision s taskId name (.pyStr v) = .pyStr v
    ∧ workingFilePathRevision s taskId name (.pyStr "0") = .pyStr "0"
    ∧ parseArg none (.pyInt 0) = .pyInt 0
    ∧ workingFilePathRevision s taskId name (.pyInt 0)
        = .pyInt (Int.ofNat (get_next_working_file_revision s taskId name)) :=
  ⟨rfl, rfl, rfl, rfl, rfl⟩

/-- C10: the new-working-file operation assigns the task to the current user
before allocating the revision and creating the record; when creation fails
with EntryAlreadyExists (HTTP 400, no working file created), the final state
still carries the task assignment — the operation does not leave all state
unchanged on error. -/
theorem C10_assignment_persists_on_conflict (tmpl : FileTreeTemplate)
    (s : Store) (task : TaskRecord) (uid : Nat) (software : Software)
    (name mode comment : String) (pid R : Nat) (sep : String)
    (hR : R ≠ 0)
    (hpath : ∀ e, NewWorkingFileResource.build_path tmpl task name R software
        sep mode ≠ .error e)
    (hex : workingRevisionExists s task.id name R = true) :
    NewWorkingFileResource.post tmpl s task uid software name mode comment pid
        R sep
      = (.err 400 "The given working file already exists.",
         { s with assignments := (task.id, uid) :: s.assignments }) := by
  obtain ⟨p, hp⟩ : ∃ p, NewWorkingFileResource.build_path tmpl task name R
      software sep mode = .ok p := by
    cases hb : NewWorkingFileResource.build_path tmpl task name R software sep
        mode with
    | error e => exact absurd hb (hpath e)
    | ok p => exact ⟨p, rfl⟩
  rw [newWorkingFilePost_pinned tmpl s task uid software name mode comment pid
    R sep p hR hp, if_pos hex]
  rfl

/-- C10 witness: the theorem instantiated at a store holding working file
(task 1, "main", revision 3): pinning revision 3 again returns 400 while the
final state carries the new assignment of task 1 to user 2. -/
theorem C10_witness :
    NewWorkingFileResource.post tmplDemo storeOneWorking taskDemo 2 softDemo
      "main" "working" "" 1 3 "/"
      = (.err 400 "The given working file already exists.",
         { storeOneWorking with
            assignments := (1, 2) :: storeOneWorking.assignments }) :=
  C10_assignment_persists_on_conflict tmplDemo storeOneWorking taskDemo 2
    softDemo "main" "working" "" 1 3 "/" (by decide) (by decide) (by decide)
